import Mathlib

/-!
# PokemonList: a verification development

A shallow embedding of `src/components/PokemonList.js` (the `PokemonList` React component and
the styled `ScrollToBottomButton`), followed by theorems about its search filter, its scroll
handlers, its two-slot compare selection and its effect lifecycle.

Conventions of the embedding:

* a JavaScript string is the list of its UTF-16 code units (`JSString`); `includes` is the
  code-unit substring test of `String.prototype.includes`;
* `String.prototype.toLowerCase` / `toUpperCase` are host functions, not code of the component:
  the component is embedded over an arbitrary `toLowerCase : JSString → JSString`; concrete
  evaluations use `asciiToLowerCase` / `latinToUpperCase`, which agree with ECMAScript on the
  strings they are applied to (ASCII text, `ß`, dotless `ı`);
* `pokemon.id` is an integer (`Int`); the Number it denotes is the nearest binary64 value
  (`toNumber`), and `numberToString` is `Number.prototype.toString` on it: the full decimal
  expansion for a safe integer, otherwise the shortest digit string that reads back as the
  Number, padded with zeros below `10^21` and in exponent form (`1e+21`) from there on;
  `decimalString` is the decimal string of the specification, by `Nat.digits`;
* `window.scrollY`, `document.documentElement.scrollHeight` and `window.innerHeight` are exact
  integers (`Int`), read from a `Window` snapshot;
* React state is passed explicitly: each handler is a function `State → State`, and
  `Instance.setState` is the React runtime applying the setter calls of a handler: to a
  mounted component, and not at all to an unmounted one.
-/

namespace PokemonList

/-! ## JavaScript strings -/

/-- A JavaScript string: its sequence of UTF-16 code units. -/
abbrev JSString := List Nat

/-- UTF-16 code units of one Unicode scalar value. -/
def utf16Char (c : Char) : List Nat :=
  if c.toNat < 65536 then [c.toNat]
  else [55296 + (c.toNat - 65536) / 1024, 56320 + (c.toNat - 65536) % 1024]

/-- The JavaScript string denoted by a literal. -/
def utf16 (s : String) : JSString :=
  s.toList.flatMap utf16Char

/-- Code-unit prefix test. -/
def startsWith : JSString → JSString → Bool
  | _, [] => true
  | [], _ :: _ => false
  | c :: s, d :: t => c == d && startsWith s t

/-- The test `s.includes(t)` of `String.prototype.includes`: `t` occurs in `s` at some index. -/
def includes : JSString → JSString → Bool
  | [], t => startsWith [] t
  | c :: s, t => startsWith (c :: s) t || includes s t

/-- Truthiness of a string value: only the empty string is falsy. -/
def truthy (s : JSString) : Bool :=
  !s.isEmpty

/-- The loop of `digits`: the digits of `n` pushed in front of `acc`. -/
def digitsAux : Nat → Nat → JSString → JSString
  | 0, _, acc => acc
  | fuel + 1, n, acc =>
    if n < 10 then (48 + n) :: acc else digitsAux fuel (n / 10) ((48 + n % 10) :: acc)

/-- Decimal digits of a natural number, most significant first. -/
def digits (n : Nat) : JSString :=
  digitsAux (n + 1) n []

/-- The loop of `bitLength`. -/
def bitLengthAux : Nat → Nat → Nat
  | 0, _ => 0
  | fuel + 1, x => if x = 0 then 0 else bitLengthAux fuel (x / 2) + 1

/-- Number of binary digits of a natural number. -/
def bitLength (x : Nat) : Nat :=
  bitLengthAux x x

/-- The Number (binary64, 53 significant bits) nearest to a natural number, ties to the even
significand. A value of more than 1024 binary digits stands for `Infinity`. -/
def toNumber (x : Nat) : Nat :=
  if bitLength x ≤ 53 then x
  else
    let ulp := 2 ^ (bitLength x - 53)
    let q := x / ulp
    let r := x % ulp
    if 2 * r > ulp ∨ (2 * r = ulp ∧ q % 2 = 1) then (q + 1) * ulp else q * ulp

/-- The integers `s`, `k`, `n` of `Number::toString`: `s` has `k` digits and `s * 10^(n-k)`
reads back as the Number. -/
structure Shortest where
  s : Nat
  k : Nat
  n : Nat
  deriving DecidableEq, Repr

/-- The triple for the value `v`, a multiple of `10^(d-k)` with `10^(d-1) ≤ v ≤ 10^d`. -/
def normalise (d k v : Nat) : Shortest :=
  if v = 10 ^ d then { s := 10 ^ (k - 1), k := k, n := d + 1 }
  else { s := v / 10 ^ (d - k), k := k, n := d }

/-- The `k`-digit value that reads back as the Number `x` (of `d` digits) and is closest to
it, the even one on a tie, if there is one: it is `x` cut to `k` digits, or the next. -/
def candidate (x d k : Nat) : Option Shortest :=
  let p := 10 ^ (d - k)
  let lo := x / p * p
  let hi := lo + p
  if toNumber lo = x then
    if toNumber hi = x then
      if x - lo < hi - x then some (normalise d k lo)
      else if hi - x < x - lo then some (normalise d k hi)
      else if (normalise d k lo).s % 2 = 0 then some (normalise d k lo)
      else some (normalise d k hi)
    else some (normalise d k lo)
  else if toNumber hi = x then some (normalise d k hi)
  else none

/-- The triple of `Number::toString` for the Number `x`: `k` as small as possible (17 digits
always suffice). -/
def shortest (x : Nat) : Shortest :=
  let d := (digits x).length
  ((List.range 17).findSome? fun j => if j + 1 ≤ d then candidate x d (j + 1) else none).getD
    { s := x, k := d, n := d }

/-- The string of `Number::toString` for an integer from its triple: up to `n = 21` the digits
of `s` and `n - k` zeros, beyond it the exponent form `d.ddde+x`. -/
def formatShortest (r : Shortest) : JSString :=
  if r.n ≤ 21 then digits r.s ++ List.replicate (r.n - r.k) 48
  else if r.k = 1 then digits r.s ++ [101, 43] ++ digits (r.n - 1)
  else (digits r.s).take 1 ++ [46] ++ (digits r.s).drop 1 ++ [101, 43] ++ digits (r.n - 1)

/-- The result of `toString()` on the Number of a natural number. For a safe integer (below
`2^53`) the shortest digit string that reads back as the Number is its whole decimal
expansion, which is taken directly. -/
def numberToStringAbs (a : Nat) : JSString :=
  if a < 2 ^ 53 then digits a
  else if bitLength (toNumber a) > 1024 then utf16 "Infinity"
  else formatShortest (shortest (toNumber a))

/-- The result of `id.toString()` for an integer `id`: `Number.prototype.toString`, radix 10. -/
def numberToString (i : Int) : JSString :=
  if i < 0 then 45 :: numberToStringAbs i.natAbs else numberToStringAbs i.natAbs

/-- The decimal string of an integer, as the specification words it: a minus sign for a
negative integer, then the base-ten digits of the magnitude, most significant first (`0` for
zero). The digits are those of `Nat.digits`. -/
def decimalString (i : Int) : JSString :=
  (if i < 0 then [45] else []) ++
    (if i.natAbs = 0 then [48] else (Nat.digits 10 i.natAbs).reverse.map fun d => 48 + d)

/-- ASCII lowercasing of one code unit: `A`..`Z` to `a`..`z`. -/
def asciiLowerUnit (u : Nat) : Nat :=
  if 65 ≤ u ∧ u ≤ 90 then u + 32 else u

/-- The value of `toLowerCase` on strings whose cased letters are ASCII. -/
def asciiToLowerCase (s : JSString) : JSString :=
  s.map asciiLowerUnit

/-- Uppercasing of one code unit on ASCII, `ß` (U+00DF, to `SS`) and dotless `ı` (U+0131,
to `I`), as `String.prototype.toUpperCase` maps them. -/
def latinUpperUnit (u : Nat) : List Nat :=
  if 97 ≤ u ∧ u ≤ 122 then [u - 32]
  else if u = 223 then [83, 83]
  else if u = 305 then [73]
  else [u]

/-- The value of `toUpperCase` on strings made of ASCII, `ß` and `ı`. -/
def latinToUpperCase (s : JSString) : JSString :=
  s.flatMap latinUpperUnit

/-! ## Component state -/

/-- One record of `pokemonData`. -/
structure Pokemon where
  id : Int
  name : JSString
  deriving DecidableEq, Repr

/-- The object held by `selectedPokemon`. -/
structure SelectedPokemon where
  pokemon1 : JSString
  pokemon2 : JSString
  deriving DecidableEq, Repr

/-- The seven `useState` cells of `PokemonList`. -/
structure State where
  pokemonData : List Pokemon
  searchTerm : JSString
  showScrollToTop : Bool
  showScrollToBottom : Bool
  scrollPosition : Int
  isComparing : Bool
  selectedPokemon : SelectedPokemon
  deriving DecidableEq, Repr

/-- The initial values passed to `useState`. -/
def initialState : State :=
  { pokemonData := []
    searchTerm := []
    showScrollToTop := false
    showScrollToBottom := false
    scrollPosition := 0
    isComparing := false
    selectedPokemon := { pokemon1 := [], pokemon2 := [] } }

/-- The browser metrics the component reads. -/
structure Window where
  scrollY : Int
  scrollHeight : Int
  innerHeight : Int
  deriving DecidableEq, Repr

/-! ## Search filter -/

/-- The callback passed to `pokemonData.filter`. -/
def matchesSearch (toLowerCase : JSString → JSString) (searchTerm : JSString)
    (pokemon : Pokemon) : Bool :=
  if searchTerm = [] then true
  else
    includes (toLowerCase pokemon.name) (toLowerCase searchTerm) ||
      includes (numberToString pokemon.id) searchTerm

/-- The derived list `filteredPokemon`. -/
def filteredPokemon (toLowerCase : JSString → JSString) (pokemonData : List Pokemon)
    (searchTerm : JSString) : List Pokemon :=
  pokemonData.filter (matchesSearch toLowerCase searchTerm)

/-! ## Handlers -/

/-- The `scroll` listener `handleScroll`. -/
def handleScroll (w : Window) (s : State) : State :=
  let scrollY := w.scrollY
  let s := if scrollY > 300 then { s with showScrollToTop := true }
    else { s with showScrollToTop := false }
  { s with scrollPosition := scrollY }

/-- The `scroll` listener `handleScrollToBottomButton`. -/
def handleScrollToBottomButton (w : Window) (s : State) : State :=
  let scrollY := w.scrollY
  let fullHeight := w.scrollHeight
  if fullHeight - scrollY - w.innerHeight > 300 then { s with showScrollToBottom := true }
  else { s with showScrollToBottom := false }

/-- The click handler of `CompareButton`. -/
def handleCompareClick (s : State) : State :=
  { s with isComparing := true }

/-- The updater passed to `setSelectedPokemon` by `handlePokemonCardClick`. -/
def selectUpdater (pokemonName : JSString) (prevSelected : SelectedPokemon) :
    SelectedPokemon :=
  if !truthy prevSelected.pokemon1 then { prevSelected with pokemon1 := pokemonName }
  else if !truthy prevSelected.pokemon2 then { prevSelected with pokemon2 := pokemonName }
  else prevSelected

/-- The click handler of a card, `handlePokemonCardClick`. -/
def handlePokemonCardClick (pokemonName : JSString) (s : State) : State :=
  if s.isComparing then
    { s with selectedPokemon := selectUpdater pokemonName s.selectedPokemon }
  else s

/-- The `onChange` handler of `SearchBar`. -/
def handleSearchChange (value : JSString) (s : State) : State :=
  { s with searchTerm := value }

/-- The continuation of `fetchPokemon` after `await fetchPokemonData()` resolves. -/
def fetchPokemonResolved (data : List Pokemon) (s : State) : State :=
  { s with pokemonData := data }

/-- The `catch` branch of `fetchPokemon`: the error is logged, no setter is called. -/
def fetchPokemonRejected (s : State) : State :=
  s

/-! ## Render -/

/-- The value of the CSS `display` property of a button. -/
inductive Display where
  | block
  | none
  deriving DecidableEq, Repr

/-- The `display` rule of `ScrollButtons`, which `ScrollToTopButton` keeps. -/
def scrollButtonsDisplay (visible : Bool) : Display :=
  if visible then Display.block else Display.none

/-- The `display` rule of `ScrollToBottomButton`, which overrides the one it extends. -/
def scrollToBottomButtonDisplay (w : Window) (visible : Bool) (scrollPosition : Int) :
    Display :=
  if visible && decide (scrollPosition > 0) &&
      decide (scrollPosition < w.scrollHeight - w.innerHeight)
  then Display.block else Display.none

/-- The props of one rendered `PokemonCard`. -/
structure Card where
  key : Int
  name : JSString
  number : Int
  imageUrl : JSString
  selected : Bool
  deriving DecidableEq, Repr

/-- The props of a rendered `PokemonTypeCompareDisplay`. -/
structure CompareDisplayProps where
  pokemon1 : JSString
  pokemon2 : JSString
  deriving DecidableEq, Repr

/-- What one render of `PokemonList` returns. -/
structure View where
  scrollToTopButton : Display
  scrollToBottomButton : Display
  searchBarValue : JSString
  cards : List Card
  compareDisplay : Option CompareDisplayProps
  deriving DecidableEq, Repr

/-- The card rendered for one element of `filteredPokemon`. -/
def renderCard (selectedPokemon : SelectedPokemon) (pokemon : Pokemon) : Card :=
  { key := pokemon.id
    name := pokemon.name
    number := pokemon.id
    imageUrl :=
      utf16 "https://raw.githubusercontent.com/PokeAPI/sprites/master/sprites/pokemon/" ++
        numberToString pokemon.id ++ utf16 ".png"
    selected :=
      decide (selectedPokemon.pokemon1 = pokemon.name) ||
        decide (selectedPokemon.pokemon2 = pokemon.name) }

/-- The JSX returned by `PokemonList` in state `s`, with the browser metrics `w`. -/
def render (toLowerCase : JSString → JSString) (w : Window) (s : State) : View :=
  { scrollToTopButton := scrollButtonsDisplay s.showScrollToTop
    scrollToBottomButton := scrollToBottomButtonDisplay w s.showScrollToBottom s.scrollPosition
    searchBarValue := s.searchTerm
    cards := (filteredPokemon toLowerCase s.pokemonData s.searchTerm).map
      (renderCard s.selectedPokemon)
    compareDisplay :=
      if s.isComparing then
        some { pokemon1 := s.selectedPokemon.pokemon1, pokemon2 := s.selectedPokemon.pokemon2 }
      else none }

/-! ## Effects and events -/

/-- The two functions the component registers as `scroll` listeners on `window`. -/
inductive ScrollListener where
  | handleScroll
  | handleScrollToBottomButton
  deriving DecidableEq, Repr

/-- Calling a registered listener. -/
def ScrollListener.call : ScrollListener → Window → State → State
  | ScrollListener.handleScroll => PokemonList.handleScroll
  | ScrollListener.handleScrollToBottomButton => PokemonList.handleScrollToBottomButton

/-- The call `window.addEventListener` for the `scroll` event: a listener is registered once. -/
def addEventListener (l : ScrollListener) (ls : List ScrollListener) : List ScrollListener :=
  if l ∈ ls then ls else ls ++ [l]

/-- The call `window.removeEventListener` for the `scroll` event. -/
def removeEventListener (l : ScrollListener) (ls : List ScrollListener) :
    List ScrollListener :=
  ls.erase l

/-- A `scroll` event on `window`: the registered listeners run in registration order. -/
def dispatchScroll (ls : List ScrollListener) (w : Window) (s : State) : State :=
  ls.foldl (fun acc l => l.call w acc) s

/-- A component: its state, whether it is mounted, the `scroll` listeners it has on `window`,
and whether the promise of `fetchPokemonData()` is still pending. -/
structure Instance where
  state : State
  mounted : Bool
  scrollListeners : List ScrollListener
  fetchPending : Bool
  deriving DecidableEq, Repr

/-- The React runtime applying the setter calls of a handler: a mounted component takes the
update, an unmounted one has no state left to update and the calls are dropped. -/
def Instance.setState (inst : Instance) (update : State → State) : Instance :=
  if inst.mounted then { inst with state := update inst.state } else inst

/-- The first render and the three effects: `fetchPokemon()` is started and both listeners
are added. -/
def mount : Instance :=
  { state := initialState
    mounted := true
    scrollListeners :=
      addEventListener ScrollListener.handleScrollToBottomButton
        (addEventListener ScrollListener.handleScroll [])
    fetchPending := true }

/-- What can happen to a component. -/
inductive Event where
  | scroll (w : Window)
  | searchChange (value : JSString)
  | compareClick
  | cardClick (pokemonName : JSString)
  | fetchResolved (data : List Pokemon)
  | fetchRejected
  | unmount
  deriving DecidableEq, Repr

/-- One event. A `scroll` event runs the listeners registered on `window`; the other handlers
and the continuation of `fetchPokemon` run as they are, mounted or not, and their setter calls
go through `Instance.setState`. On `unmount` the effect cleanups run: the two effects that
added a listener remove it; the `fetchPokemon` effect returns no cleanup, so its promise stays
pending. -/
def Instance.step (inst : Instance) : Event → Instance
  | Event.scroll w => inst.setState (dispatchScroll inst.scrollListeners w)
  | Event.searchChange value => inst.setState (handleSearchChange value)
  | Event.compareClick => inst.setState handleCompareClick
  | Event.cardClick pokemonName => inst.setState (handlePokemonCardClick pokemonName)
  | Event.fetchResolved data =>
    if inst.fetchPending then
      Instance.setState { inst with fetchPending := false } (fetchPokemonResolved data)
    else inst
  | Event.fetchRejected =>
    if inst.fetchPending then
      Instance.setState { inst with fetchPending := false } fetchPokemonRejected
    else inst
  | Event.unmount =>
    { inst with
      mounted := false
      scrollListeners :=
        removeEventListener ScrollListener.handleScrollToBottomButton
          (removeEventListener ScrollListener.handleScroll inst.scrollListeners) }

/-- A sequence of events, from the left. -/
def Instance.run (inst : Instance) (events : List Event) : Instance :=
  events.foldl Instance.step inst

/-! ## Example data -/

/-- The record `{ id: 1, name: "Bulbasaur" }`. -/
def bulbasaur : Pokemon :=
  { id := 1, name := utf16 "Bulbasaur" }

/-- The record `{ id: 25, name: "pikachu" }`, as the data source spells it. -/
def pikachu : Pokemon :=
  { id := 25, name := utf16 "pikachu" }

/-- A state in Comparing mode with nothing selected: `initialState` after `handleCompareClick`. -/
def comparingState : State :=
  handleCompareClick initialState

/-! ## Predicates of the statements -/

/-- The order of the slots: `pokemon2` is set only after `pokemon1`. -/
def SlotOrder (p : SelectedPokemon) : Prop :=
  p.pokemon2 ≠ [] → p.pokemon1 ≠ []

/-- The listeners of a component are the two it added, or none. -/
def ListenersPaired (inst : Instance) : Prop :=
  inst.scrollListeners =
      [ScrollListener.handleScroll, ScrollListener.handleScrollToBottomButton] ∨
    inst.scrollListeners = []

/-- A string made only of decimal digits and the minus sign. -/
def Decimal (s : JSString) : Prop :=
  ∀ u ∈ s, u = 45 ∨ (48 ≤ u ∧ u ≤ 57)

/-- What the theorems on letter case use of the host functions `toLowerCase` and `toUpperCase`:
lowercasing is idempotent, digits and the minus sign have no case, and no case mapping turns a
string with another character into a string of digits and minus signs. -/
structure CaseLaws (toLowerCase toUpperCase : JSString → JSString) : Prop where
  lower_idem : ∀ s, toLowerCase (toLowerCase s) = toLowerCase s
  lower_decimal : ∀ s, Decimal s → toLowerCase s = s
  upper_decimal : ∀ s, Decimal s → toUpperCase s = s
  lower_other : ∀ s, ¬ Decimal s → ¬ Decimal (toLowerCase s)
  upper_other : ∀ s, ¬ Decimal s → ¬ Decimal (toUpperCase s)

/-! ## The substring test is the list infix relation -/

theorem startsWith_iff (s t : JSString) : startsWith s t = true ↔ t <+: s := by
  induction s generalizing t with
  | nil =>
    cases t with
    | nil => simp only [startsWith, List.prefix_nil]
    | cons d t => simp only [startsWith, List.prefix_nil]; simp
  | cons c s ih =>
    cases t with
    | nil => simp only [startsWith, List.nil_prefix]
    | cons d t =>
      simp only [startsWith, Bool.and_eq_true, beq_iff_eq, ih, List.cons_prefix_cons]
      constructor
      · rintro ⟨h1, h2⟩
        exact ⟨h1.symm, h2⟩
      · rintro ⟨h1, h2⟩
        exact ⟨h1.symm, h2⟩

theorem includes_iff (s t : JSString) : includes s t = true ↔ t <:+: s := by
  induction s with
  | nil => simp [includes, startsWith_iff]
  | cons c s ih => simp [includes, startsWith_iff, ih, List.infix_cons_iff]

theorem matchesSearch_iff (toLowerCase : JSString → JSString) (T : JSString) (r : Pokemon) :
    matchesSearch toLowerCase T r = true ↔
      T = [] ∨ toLowerCase T <:+: toLowerCase r.name ∨ T <:+: numberToString r.id := by
  unfold matchesSearch
  by_cases hT : T = []
  · simp [hT]
  · simp [hT, includes_iff]

/-! ## The printed id of a safe integer -/

theorem digitsAux_eq (fuel n : Nat) (acc : JSString) (hfuel : n < fuel) (hn : 0 < n) :
    digitsAux fuel n acc = ((Nat.digits 10 n).reverse.map fun d => 48 + d) ++ acc := by
  induction fuel generalizing n acc with
  | zero => omega
  | succ fuel ih =>
    unfold digitsAux
    split
    · rename_i h10
      rw [Nat.digits_of_lt 10 n (by omega) h10]
      rfl
    · rename_i h10
      rw [ih (n / 10) _ (by omega) (by omega), Nat.digits_def' (by decide) hn]
      simp

theorem digits_eq (n : Nat) :
    digits n = if n = 0 then [48] else (Nat.digits 10 n).reverse.map fun d => 48 + d := by
  by_cases h : n = 0
  · subst h
    rfl
  · rw [if_neg h]
    unfold digits
    rw [digitsAux_eq (n + 1) n [] (by omega) (by omega), List.append_nil]

theorem digits_range (n : Nat) : ∀ u ∈ digits n, 48 ≤ u ∧ u ≤ 57 := by
  intro u hu
  rw [digits_eq] at hu
  split at hu
  · simp only [List.mem_singleton] at hu
    omega
  · simp only [List.mem_map, List.mem_reverse] at hu
    obtain ⟨d, hd, rfl⟩ := hu
    have := Nat.digits_lt_base (by decide : 1 < 10) hd
    omega

theorem digits_length (n e : Nat) (he : 0 < e) (h : n < 10 ^ e) : (digits n).length ≤ e := by
  rw [digits_eq]
  split
  · simpa using he
  · rename_i hn
    rw [List.length_map, List.length_reverse, Nat.digits_len 10 n (by decide) hn]
    exact Nat.log_lt_of_lt_pow hn h

theorem decimalString_eq_digits (i : Int) :
    decimalString i = (if i < 0 then [45] else []) ++ digits i.natAbs := by
  unfold decimalString
  rw [digits_eq]

theorem decimal_of_substring {s t : JSString} (h : t <:+: s) (hs : Decimal s) : Decimal t :=
  fun u hu => hs u (h.subset hu)

theorem numberToString_safe (i : Int) (h : i.natAbs < 2 ^ 53) :
    numberToString i = decimalString i := by
  unfold numberToString decimalString numberToStringAbs
  rw [if_pos h, digits_eq]
  split <;> rfl

theorem decimal_decimalString (i : Int) : Decimal (decimalString i) := by
  intro u hu
  unfold decimalString at hu
  rw [← digits_eq] at hu
  rcases List.mem_append.1 hu with h | h
  · split at h
    · exact Or.inl (List.mem_singleton.1 h)
    · simp at h
  · exact Or.inr (digits_range _ u h)

theorem bitLengthAux_le (fuel x b : Nat) (h : x < 2 ^ b) : bitLengthAux fuel x ≤ b := by
  induction fuel generalizing x b with
  | zero => exact Nat.zero_le _
  | succ fuel ih =>
    unfold bitLengthAux
    split
    · exact Nat.zero_le _
    · rename_i hx
      cases b with
      | zero => omega
      | succ b =>
        have : x / 2 < 2 ^ b := by
          rw [Nat.pow_succ] at h
          omega
        have := ih (x / 2) b this
        omega

theorem toNumber_safe (a : Nat) (h : a < 2 ^ 53) : toNumber a = a := by
  unfold toNumber
  rw [if_pos (show bitLength a ≤ 53 from bitLengthAux_le a a 53 h)]

/-! ## Search filter -/

/-- C1, as stated, fails where `toString()` is not the decimal string of the id. The Number
`10^21` prints as `1e+21`: the record `{ id: 1e21, name: "abc" }` is kept for the term `e`,
which is neither empty, nor in the name, nor in the decimal string of the id. The Number
`2^60` prints as `1152921504606847000`: the record is dropped for the term `6976`, which is in
the decimal string `1152921504606846976` of the id. -/
theorem filteredPokemon_toString_counterexample :
    (numberToString (10 ^ 21) = utf16 "1e+21" ∧
      filteredPokemon asciiToLowerCase [⟨10 ^ 21, utf16 "abc"⟩] (utf16 "e") =
        [⟨10 ^ 21, utf16 "abc"⟩] ∧
      utf16 "e" ≠ [] ∧
      ¬ asciiToLowerCase (utf16 "e") <:+: asciiToLowerCase (utf16 "abc") ∧
      ¬ utf16 "e" <:+: decimalString (10 ^ 21)) ∧
    (numberToString (2 ^ 60) = utf16 "1152921504606847000" ∧
      filteredPokemon asciiToLowerCase [⟨2 ^ 60, utf16 "abc"⟩] (utf16 "6976") = [] ∧
      utf16 "6976" <:+: decimalString (2 ^ 60)) := by
  refine ⟨⟨by decide, by decide, by decide, ?_, ?_⟩, by decide, by decide, ?_⟩
  · rw [← includes_iff]
    decide
  · intro h
    have := decimal_of_substring h (decimal_decimalString _) 101 (by decide)
    omega
  · rw [decimalString_eq_digits, ← includes_iff]
    decide

/-- C1, amended: for a record whose id is a safe integer (magnitude below `2^53`), the record
is in `filteredPokemon` exactly when it is in the collection and the search term is empty, or
the lowercased name contains the lowercased term, or the decimal string of the id contains the
term itself; `{ id: 1, name: "Bulbasaur" }` is kept for the terms `bulb`, `BULB` and `1` and
dropped for the term `2`. -/
theorem filteredPokemon_mem_iff :
    (∀ (toLowerCase : JSString → JSString) (C : List Pokemon) (T : JSString) (r : Pokemon),
      r.id.natAbs < 2 ^ 53 →
        (r ∈ filteredPokemon toLowerCase C T ↔
          r ∈ C ∧
            (T = [] ∨ toLowerCase T <:+: toLowerCase r.name ∨ T <:+: decimalString r.id))) ∧
    (∀ C : List Pokemon, bulbasaur ∈ C →
      bulbasaur ∈ filteredPokemon asciiToLowerCase C (utf16 "bulb") ∧
      bulbasaur ∈ filteredPokemon asciiToLowerCase C (utf16 "BULB") ∧
      bulbasaur ∈ filteredPokemon asciiToLowerCase C (utf16 "1") ∧
      bulbasaur ∉ filteredPokemon asciiToLowerCase C (utf16 "2")) := by
  refine ⟨?_, ?_⟩
  · intro toLowerCase C T r hid
    simp only [filteredPokemon, List.mem_filter, matchesSearch_iff, numberToString_safe r.id hid]
  · intro C hC
    have h1 : matchesSearch asciiToLowerCase (utf16 "bulb") bulbasaur = true := by decide
    have h2 : matchesSearch asciiToLowerCase (utf16 "BULB") bulbasaur = true := by decide
    have h3 : matchesSearch asciiToLowerCase (utf16 "1") bulbasaur = true := by decide
    have h4 : matchesSearch asciiToLowerCase (utf16 "2") bulbasaur = false := by decide
    simp only [filteredPokemon, List.mem_filter, h1, h2, h3, h4, hC, and_self, and_true]
    simp

/-- The record `pikachu`, id 25, in a collection of two, for the term `25`. -/
theorem filteredPokemon_mem_iff_witness :
    pikachu ∈ filteredPokemon asciiToLowerCase [bulbasaur, pikachu] (utf16 "25") ↔
      pikachu ∈ [bulbasaur, pikachu] ∧
        (utf16 "25" = [] ∨
          asciiToLowerCase (utf16 "25") <:+: asciiToLowerCase pikachu.name ∨
          utf16 "25" <:+: decimalString pikachu.id) :=
  filteredPokemon_mem_iff.1 asciiToLowerCase [bulbasaur, pikachu] (utf16 "25") pikachu
    (by decide)

/-- C2: `filteredPokemon` is a subsequence of the collection: the same records in the same
relative order, none more often than in the collection. -/
theorem filteredPokemon_sublist (toLowerCase : JSString → JSString) (C : List Pokemon)
    (T : JSString) :
    List.Sublist (filteredPokemon toLowerCase C T) C ∧
      (∀ r, r ∈ filteredPokemon toLowerCase C T → r ∈ C) ∧
      (∀ r, (filteredPokemon toLowerCase C T).count r ≤ C.count r) := by
  have h : List.Sublist (filteredPokemon toLowerCase C T) C := List.filter_sublist C
  exact ⟨h, fun r hr => h.subset hr, fun r => h.count_le r⟩

/-! ## Selection -/

theorem truthy_iff (s : JSString) : truthy s = true ↔ s ≠ [] := by
  cases s <;> simp [truthy]

/-- C3: in Comparing state with an empty pair, clicking a card named `a` and then one named
`b` (both non-empty, possibly equal) gives the pair `(a, b)`, and a third click with any name
`c` changes nothing. -/
theorem handlePokemonCardClick_fills_pair (s : State) (a b c : JSString)
    (hcmp : s.isComparing = true)
    (hempty : s.selectedPokemon = { pokemon1 := [], pokemon2 := [] })
    (ha : a ≠ []) (hb : b ≠ []) :
    (handlePokemonCardClick b (handlePokemonCardClick a s)).selectedPokemon =
        { pokemon1 := a, pokemon2 := b } ∧
      handlePokemonCardClick c (handlePokemonCardClick b (handlePokemonCardClick a s)) =
        handlePokemonCardClick b (handlePokemonCardClick a s) := by
  simp [handlePokemonCardClick, selectUpdater, hcmp, hempty, truthy, ha, hb]

/-- The clicks `Pikachu`, `Charmander`, `Squirtle` from `comparingState`. -/
theorem handlePokemonCardClick_fills_pair_witness :
    (handlePokemonCardClick (utf16 "Charmander")
        (handlePokemonCardClick (utf16 "Pikachu") comparingState)).selectedPokemon =
        { pokemon1 := utf16 "Pikachu", pokemon2 := utf16 "Charmander" } ∧
      handlePokemonCardClick (utf16 "Squirtle")
          (handlePokemonCardClick (utf16 "Charmander")
            (handlePokemonCardClick (utf16 "Pikachu") comparingState)) =
        handlePokemonCardClick (utf16 "Charmander")
          (handlePokemonCardClick (utf16 "Pikachu") comparingState) :=
  handlePokemonCardClick_fills_pair comparingState (utf16 "Pikachu") (utf16 "Charmander")
    (utf16 "Squirtle") (by decide) (by decide) (by decide) (by decide)

/-- C6: outside Comparing state a card click returns the state it was given, every field
included. -/
theorem handlePokemonCardClick_browsing (s : State) (n : JSString)
    (h : s.isComparing = false) : handlePokemonCardClick n s = s := by
  simp [handlePokemonCardClick, h]

/-- A click on `Pikachu` in the initial state. -/
theorem handlePokemonCardClick_browsing_witness :
    handlePokemonCardClick (utf16 "Pikachu") initialState = initialState :=
  handlePokemonCardClick_browsing initialState (utf16 "Pikachu") (by decide)

/-! ## Scroll flags -/

theorem mount_scrollListeners :
    mount.scrollListeners =
      [ScrollListener.handleScroll, ScrollListener.handleScrollToBottomButton] := by
  decide

theorem dispatchScroll_mount (w : Window) (s : State) :
    dispatchScroll mount.scrollListeners w s =
      handleScrollToBottomButton w (handleScroll w s) := by
  rw [mount_scrollListeners]
  rfl

theorem dispatchScroll_showScrollToTop (w : Window) (s : State) :
    (dispatchScroll mount.scrollListeners w s).showScrollToTop = decide (w.scrollY > 300) := by
  rw [dispatchScroll_mount]
  unfold handleScrollToBottomButton handleScroll
  by_cases h1 : w.scrollY > 300 <;>
    by_cases h2 : w.scrollHeight - w.scrollY - w.innerHeight > 300 <;> simp [h1, h2]

theorem dispatchScroll_showScrollToBottom (w : Window) (s : State) :
    (dispatchScroll mount.scrollListeners w s).showScrollToBottom =
      decide (w.scrollHeight - w.scrollY - w.innerHeight > 300) := by
  rw [dispatchScroll_mount]
  unfold handleScrollToBottomButton handleScroll
  by_cases h1 : w.scrollY > 300 <;>
    by_cases h2 : w.scrollHeight - w.scrollY - w.innerHeight > 300 <;> simp [h1, h2]

theorem dispatchScroll_scrollPosition (w : Window) (s : State) :
    (dispatchScroll mount.scrollListeners w s).scrollPosition = w.scrollY := by
  rw [dispatchScroll_mount]
  unfold handleScrollToBottomButton handleScroll
  by_cases h1 : w.scrollY > 300 <;>
    by_cases h2 : w.scrollHeight - w.scrollY - w.innerHeight > 300 <;> simp [h1, h2]

/-- C5: after a `scroll` event has run the two registered listeners, `showScrollToTop` is true
exactly when `scrollY > 300` (true at 301, false at 300) and `showScrollToBottom` is true
exactly when `scrollHeight - scrollY - innerHeight > 300`; neither flag depends on the state
before the event. -/
theorem scroll_flags :
    (∀ (w : Window) (s : State),
      ((dispatchScroll mount.scrollListeners w s).showScrollToTop = true ↔ w.scrollY > 300) ∧
      ((dispatchScroll mount.scrollListeners w s).showScrollToBottom = true ↔
        w.scrollHeight - w.scrollY - w.innerHeight > 300)) ∧
    (∀ (H V : Int) (s : State),
      (dispatchScroll mount.scrollListeners ⟨301, H, V⟩ s).showScrollToTop = true ∧
      (dispatchScroll mount.scrollListeners ⟨300, H, V⟩ s).showScrollToTop = false) ∧
    (∀ (w : Window) (s t : State),
      (dispatchScroll mount.scrollListeners w s).showScrollToTop =
        (dispatchScroll mount.scrollListeners w t).showScrollToTop ∧
      (dispatchScroll mount.scrollListeners w s).showScrollToBottom =
        (dispatchScroll mount.scrollListeners w t).showScrollToBottom) := by
  refine ⟨?_, ?_, ?_⟩
  · intro w s
    simp [dispatchScroll_showScrollToTop, dispatchScroll_showScrollToBottom]
  · intro H V s
    simp [dispatchScroll_showScrollToTop]
  · intro w s t
    simp [dispatchScroll_showScrollToTop, dispatchScroll_showScrollToBottom]

/-- C10: after a `scroll` event, with the page and viewport heights unchanged at render,
`ScrollToBottomButton` is displayed exactly when `scrollY > 0` and
`scrollHeight - scrollY - innerHeight > 300`; the bound `scrollPosition < scrollHeight -
innerHeight` of the style rule follows from the flag; at `scrollY = 0`, and in the initial state,
the button is hidden whatever the page height. -/
theorem scrollToBottomButton_display :
    (∀ (toLowerCase : JSString → JSString) (w : Window) (s : State),
      (render toLowerCase w (dispatchScroll mount.scrollListeners w s)).scrollToBottomButton =
          Display.block ↔
        w.scrollY > 0 ∧ w.scrollHeight - w.scrollY - w.innerHeight > 300) ∧
    (∀ (w : Window) (s : State),
      (dispatchScroll mount.scrollListeners w s).showScrollToBottom = true →
        (dispatchScroll mount.scrollListeners w s).scrollPosition <
          w.scrollHeight - w.innerHeight) ∧
    (∀ (toLowerCase : JSString → JSString) (H V : Int) (s : State),
      (render toLowerCase ⟨0, H, V⟩
        (dispatchScroll mount.scrollListeners ⟨0, H, V⟩ s)).scrollToBottomButton =
          Display.none) ∧
    (∀ (toLowerCase : JSString → JSString) (w : Window),
      (render toLowerCase w initialState).scrollToBottomButton = Display.none) := by
  refine ⟨?_, ?_, ?_, ?_⟩
  · intro toLowerCase w s
    simp only [render, scrollToBottomButtonDisplay, dispatchScroll_showScrollToBottom,
      dispatchScroll_scrollPosition]
    by_cases h1 : w.scrollY > 0 <;>
      by_cases h2 : w.scrollHeight - w.scrollY - w.innerHeight > 300 <;>
      simp [h1, h2]
    omega
  · intro w s
    simp only [dispatchScroll_showScrollToBottom, dispatchScroll_scrollPosition,
      decide_eq_true_eq]
    intro h
    omega
  · intro toLowerCase H V s
    simp [render, scrollToBottomButtonDisplay, dispatchScroll_scrollPosition]
  · intro toLowerCase w
    simp [render, scrollToBottomButtonDisplay, initialState]

/-! ## Comparison view -/

/-- C4, as stated, fails: in Comparing state with both slots empty the comparison view is
rendered (with two empty names). -/
theorem compareDisplay_guard_counterexample :
    (comparingState.selectedPokemon.pokemon1 = [] ∧
      comparingState.selectedPokemon.pokemon2 = [] ∧
      (render asciiToLowerCase ⟨0, 0, 0⟩ comparingState).compareDisplay =
        some { pokemon1 := [], pokemon2 := [] }) ∧
    ¬ ∀ (toLowerCase : JSString → JSString) (w : Window) (s : State),
      (render toLowerCase w s).compareDisplay.isSome = true →
        s.isComparing = true ∧ s.selectedPokemon.pokemon1 ≠ [] ∧
          s.selectedPokemon.pokemon2 ≠ [] := by
  refine ⟨by decide, ?_⟩
  intro h
  have h0 := h asciiToLowerCase ⟨0, 0, 0⟩ comparingState (by decide)
  exact h0.2.1 (by decide)

/-- C4, amended: the comparison view is rendered exactly when the view is in Comparing state,
and it receives the two slots as they are, empty or not. -/
theorem compareDisplay_iff_isComparing (toLowerCase : JSString → JSString) (w : Window)
    (s : State) :
    ((render toLowerCase w s).compareDisplay.isSome = true ↔ s.isComparing = true) ∧
      ∀ props, (render toLowerCase w s).compareDisplay = some props →
        props.pokemon1 = s.selectedPokemon.pokemon1 ∧
          props.pokemon2 = s.selectedPokemon.pokemon2 := by
  cases hc : s.isComparing with
  | false => simp [render, hc]
  | true =>
    simp only [render, hc, if_true, Option.isSome_some, Option.some.injEq, true_and]
    intro props hp
    subst hp
    exact ⟨rfl, rfl⟩

/-! ## Reachable states -/

theorem selectUpdater_slotOrder (n : JSString) (p : SelectedPokemon) (h : SlotOrder p) :
    SlotOrder (selectUpdater n p) := by
  unfold SlotOrder at *
  unfold selectUpdater
  by_cases h1 : p.pokemon1 = []
  · have h2 : p.pokemon2 = [] := by
      by_contra hne
      exact h hne h1
    simp [truthy, h1, h2]
  · by_cases h2 : p.pokemon2 = []
    · simp [truthy, h1, h2]
    · simp [truthy, h1, h2]

theorem selectUpdater_full (n : JSString) (p : SelectedPokemon) (h1 : p.pokemon1 ≠ [])
    (h2 : p.pokemon2 ≠ []) : selectUpdater n p = p := by
  simp [selectUpdater, truthy, h1, h2]

theorem call_selectedPokemon (l : ScrollListener) (w : Window) (s : State) :
    (l.call w s).selectedPokemon = s.selectedPokemon := by
  cases l
  · simp only [ScrollListener.call, handleScroll]
    split <;> rfl
  · simp only [ScrollListener.call, handleScrollToBottomButton]
    split <;> rfl

theorem dispatchScroll_selectedPokemon (ls : List ScrollListener) (w : Window) (s : State) :
    (dispatchScroll ls w s).selectedPokemon = s.selectedPokemon := by
  induction ls generalizing s with
  | nil => rfl
  | cons l ls ih =>
    have h := ih (l.call w s)
    rw [call_selectedPokemon] at h
    exact h

theorem setState_slotOrder (inst : Instance) (update : State → State)
    (h : SlotOrder inst.state.selectedPokemon)
    (hu : SlotOrder (update inst.state).selectedPokemon) :
    SlotOrder (inst.setState update).state.selectedPokemon := by
  unfold Instance.setState
  split
  · exact hu
  · exact h

theorem handlePokemonCardClick_slotOrder (n : JSString) (s : State)
    (h : SlotOrder s.selectedPokemon) :
    SlotOrder (handlePokemonCardClick n s).selectedPokemon := by
  unfold handlePokemonCardClick
  split
  · exact selectUpdater_slotOrder n _ h
  · exact h

theorem step_slotOrder (inst : Instance) (e : Event)
    (h : SlotOrder inst.state.selectedPokemon) :
    SlotOrder (inst.step e).state.selectedPokemon := by
  cases e with
  | scroll w =>
    apply setState_slotOrder inst _ h
    rw [dispatchScroll_selectedPokemon]
    exact h
  | searchChange value => exact setState_slotOrder inst _ h h
  | compareClick => exact setState_slotOrder inst _ h h
  | cardClick pokemonName =>
    exact setState_slotOrder inst _ h (handlePokemonCardClick_slotOrder pokemonName _ h)
  | fetchResolved data =>
    simp only [Instance.step]
    split
    · exact setState_slotOrder _ _ h h
    · exact h
  | fetchRejected =>
    simp only [Instance.step]
    split
    · exact setState_slotOrder _ _ h h
    · exact h
  | unmount => exact h

theorem run_slotOrder (events : List Event) (inst : Instance)
    (h : SlotOrder inst.state.selectedPokemon) :
    SlotOrder (inst.run events).state.selectedPokemon := by
  induction events generalizing inst with
  | nil => exact h
  | cons e es ih => exact ih (inst.step e) (step_slotOrder inst e h)

/-- C7: in every state reached from the first render by any sequence of events (compare
clicks and card clicks with any name, the empty one too, among them), `pokemon2` non-empty
implies `pokemon1` non-empty; and in any state with both slots non-empty a card click leaves
the pair as it is. Such a state is reached: a compare click, then clicks on `Pikachu` and
`Charmander`, fill both slots. -/
theorem slot_order_invariant :
    (∀ events : List Event,
      (mount.run events).state.selectedPokemon.pokemon2 ≠ [] →
        (mount.run events).state.selectedPokemon.pokemon1 ≠ []) ∧
    (∀ (s : State) (n : JSString),
      s.selectedPokemon.pokemon1 ≠ [] → s.selectedPokemon.pokemon2 ≠ [] →
        (handlePokemonCardClick n s).selectedPokemon = s.selectedPokemon) ∧
    (mount.run [Event.compareClick, Event.cardClick (utf16 "Pikachu"),
        Event.cardClick (utf16 "Charmander")]).state.selectedPokemon =
      { pokemon1 := utf16 "Pikachu", pokemon2 := utf16 "Charmander" } := by
  refine ⟨?_, ?_, by decide⟩
  · intro events
    exact run_slotOrder events mount (by intro h; exact absurd rfl h)
  · intro s n h1 h2
    unfold handlePokemonCardClick
    split
    · exact selectUpdater_full n _ h1 h2
    · rfl

/-! ## Teardown -/

theorem setState_unmounted (inst : Instance) (update : State → State)
    (h : inst.mounted = false) : inst.setState update = inst := by
  simp [Instance.setState, h]

theorem step_unmounted (inst : Instance) (e : Event) (h : inst.mounted = false) :
    (inst.step e).mounted = false ∧ (inst.step e).state = inst.state := by
  cases e with
  | scroll w => simp only [Instance.step, setState_unmounted inst _ h, h, and_self]
  | searchChange value => simp only [Instance.step, setState_unmounted inst _ h, h, and_self]
  | compareClick => simp only [Instance.step, setState_unmounted inst _ h, h, and_self]
  | cardClick pokemonName =>
    simp only [Instance.step, setState_unmounted inst _ h, h, and_self]
  | fetchResolved data =>
    simp only [Instance.step]
    split
    · rw [setState_unmounted _ _ (show (Instance.mk inst.state inst.mounted
        inst.scrollListeners false).mounted = false from h)]
      exact ⟨h, rfl⟩
    · exact ⟨h, rfl⟩
  | fetchRejected =>
    simp only [Instance.step]
    split
    · rw [setState_unmounted _ _ (show (Instance.mk inst.state inst.mounted
        inst.scrollListeners false).mounted = false from h)]
      exact ⟨h, rfl⟩
    · exact ⟨h, rfl⟩
  | unmount => exact ⟨rfl, rfl⟩

theorem run_unmounted (events : List Event) (inst : Instance) (h : inst.mounted = false) :
    (inst.run events).state = inst.state := by
  induction events generalizing inst with
  | nil => rfl
  | cons e es ih =>
    have hs := step_unmounted inst e h
    exact (ih (inst.step e) hs.1).trans hs.2

theorem setState_scrollListeners (inst : Instance) (update : State → State) :
    (inst.setState update).scrollListeners = inst.scrollListeners := by
  unfold Instance.setState
  split <;> rfl

theorem step_scrollListeners (inst : Instance) (e : Event) (h : e ≠ Event.unmount) :
    (inst.step e).scrollListeners = inst.scrollListeners := by
  cases e with
  | scroll w => exact setState_scrollListeners inst _
  | searchChange value => exact setState_scrollListeners inst _
  | compareClick => exact setState_scrollListeners inst _
  | cardClick pokemonName => exact setState_scrollListeners inst _
  | fetchResolved data =>
    simp only [Instance.step]
    split
    · exact setState_scrollListeners _ _
    · rfl
  | fetchRejected =>
    simp only [Instance.step]
    split
    · exact setState_scrollListeners _ _
    · rfl
  | unmount => exact absurd rfl h

theorem unmount_scrollListeners (inst : Instance) (h : ListenersPaired inst) :
    (inst.step Event.unmount).scrollListeners = [] := by
  rcases h with h | h
  · simp only [Instance.step, h]
    decide
  · simp only [Instance.step, h]
    decide

theorem step_listenersPaired (inst : Instance) (e : Event) (h : ListenersPaired inst) :
    ListenersPaired (inst.step e) := by
  by_cases he : e = Event.unmount
  · subst he
    exact Or.inr (unmount_scrollListeners inst h)
  · unfold ListenersPaired
    rw [step_scrollListeners inst e he]
    exact h

theorem run_listenersPaired (events : List Event) (inst : Instance)
    (h : ListenersPaired inst) : ListenersPaired (inst.run events) := by
  induction events generalizing inst with
  | nil => exact h
  | cons e es ih => exact ih (inst.step e) (step_listenersPaired inst e h)

theorem step_no_listeners (inst : Instance) (e : Event) (h : inst.scrollListeners = []) :
    (inst.step e).scrollListeners = [] := by
  by_cases he : e = Event.unmount
  · subst he
    exact unmount_scrollListeners inst (Or.inr h)
  · rw [step_scrollListeners inst e he]
    exact h

theorem run_no_listeners (events : List Event) (inst : Instance)
    (h : inst.scrollListeners = []) : (inst.run events).scrollListeners = [] := by
  induction events generalizing inst with
  | nil => exact h
  | cons e es ih => exact ih (inst.step e) (step_no_listeners inst e h)

/-- C8: once a component reached by any events has been unmounted, its state never changes
again, whatever events follow: both `scroll` listeners have been removed from `window` and stay
removed, so a `scroll` event changes neither `showScrollToTop`, `showScrollToBottom` nor
`scrollPosition`; and a pending fetch that resolves or rejects leaves `pokemonData` as it was,
the late setter call being dropped. Before the unmount the same events do change the state. -/
theorem unmounted_state_frozen :
    (∀ before after : List Event,
      (((mount.run before).step Event.unmount).run after).state = (mount.run before).state ∧
      (((mount.run before).step Event.unmount).run after).scrollListeners = []) ∧
    (∀ (before : List Event) (w : Window),
      (((mount.run before).step Event.unmount).step (Event.scroll w)).state.showScrollToTop =
        ((mount.run before).step Event.unmount).state.showScrollToTop ∧
      (((mount.run before).step Event.unmount).step (Event.scroll w)).state.showScrollToBottom =
        ((mount.run before).step Event.unmount).state.showScrollToBottom ∧
      (((mount.run before).step Event.unmount).step (Event.scroll w)).state.scrollPosition =
        ((mount.run before).step Event.unmount).state.scrollPosition) ∧
    (∀ (before : List Event) (data : List Pokemon),
      (((mount.run before).step Event.unmount).step
          (Event.fetchResolved data)).state.pokemonData =
        ((mount.run before).step Event.unmount).state.pokemonData ∧
      (((mount.run before).step Event.unmount).step Event.fetchRejected).state.pokemonData =
        ((mount.run before).step Event.unmount).state.pokemonData) ∧
    ((mount.step (Event.fetchResolved [bulbasaur])).state.pokemonData = [bulbasaur] ∧
      (mount.step (Event.scroll ⟨301, 2000, 600⟩)).state.showScrollToTop = true ∧
      ((mount.step Event.unmount).step (Event.fetchResolved [bulbasaur])).state.pokemonData =
        []) := by
  have hm : ∀ before : List Event, ((mount.run before).step Event.unmount).mounted = false :=
    fun _ => rfl
  refine ⟨?_, ?_, ?_, by decide⟩
  · intro before after
    refine ⟨run_unmounted after _ (hm before), ?_⟩
    exact run_no_listeners after _
      (unmount_scrollListeners _ (run_listenersPaired before mount (Or.inl mount_scrollListeners)))
  · intro before w
    rw [(step_unmounted _ (Event.scroll w) (hm before)).2]
    exact ⟨rfl, rfl, rfl⟩
  · intro before data
    rw [(step_unmounted _ (Event.fetchResolved data) (hm before)).2,
      (step_unmounted _ Event.fetchRejected (hm before)).2]
    exact ⟨rfl, rfl⟩

/-! ## Letter case of the search term -/

theorem decimal_nil : Decimal [] := by
  intro u hu
  simp at hu

/-! ### The printed id below `10^21` -/

theorem normalise_n (d k v : Nat) :
    (normalise d k v).n = d ∨ ((normalise d k v).n = d + 1 ∧ v = 10 ^ d) := by
  unfold normalise
  split
  · rename_i h
    exact Or.inr ⟨rfl, h⟩
  · exact Or.inl rfl

theorem candidate_n (x d k : Nat) (r : Shortest) (h : candidate x d k = some r) :
    r.n = d ∨ (r.n = d + 1 ∧ toNumber (10 ^ d) = x) := by
  have key : ∀ v, toNumber v = x → some (normalise d k v) = some r →
      r.n = d ∨ (r.n = d + 1 ∧ toNumber (10 ^ d) = x) := by
    intro v hv hr
    have hr := Option.some.inj hr
    subst hr
    rcases normalise_n d k v with h1 | ⟨h1, h2⟩
    · exact Or.inl h1
    · exact Or.inr ⟨h1, h2 ▸ hv⟩
  unfold candidate at h
  simp only at h
  split at h
  · rename_i hlo
    split at h
    · rename_i hhi
      split at h
      · exact key _ hlo h
      · split at h
        · exact key _ hhi h
        · split at h
          · exact key _ hlo h
          · exact key _ hhi h
    · exact key _ hlo h
  · split at h
    · rename_i hhi
      exact key _ hhi h
    · exact absurd h (by simp)

theorem shortest_n (x : Nat) (hx : x < 10 ^ 21) : (shortest x).n ≤ 21 := by
  have hd : (digits x).length ≤ 21 := digits_length x 21 (by decide) hx
  unfold shortest
  simp only
  cases hf : (List.range 17).findSome? fun j =>
      if j + 1 ≤ (digits x).length then candidate x (digits x).length (j + 1) else none with
  | none => exact hd
  | some r =>
    obtain ⟨j, _, hj⟩ := List.exists_of_findSome?_eq_some hf
    split at hj
    · rcases candidate_n x _ _ r hj with h1 | ⟨h1, h2⟩
      · simp only [Option.getD_some]
        omega
      · simp only [Option.getD_some]
        by_cases h21 : (digits x).length = 21
        · rw [h21] at h2
          have : toNumber (10 ^ 21) = 10 ^ 21 := by decide
          omega
        · omega
    · exact absurd hj (by simp)

theorem decimal_formatShortest (r : Shortest) (h : r.n ≤ 21) : Decimal (formatShortest r) := by
  intro u hu
  unfold formatShortest at hu
  rw [if_pos h] at hu
  rcases List.mem_append.1 hu with h1 | h1
  · exact Or.inr (digits_range _ u h1)
  · have := List.eq_of_mem_replicate h1
    omega

theorem decimal_numberToStringAbs (a : Nat) (h : toNumber a < 10 ^ 21) :
    Decimal (numberToStringAbs a) := by
  unfold numberToStringAbs
  split
  · exact fun u hu => Or.inr (digits_range _ u hu)
  · split
    · rename_i hinf
      have h70 : toNumber a < 2 ^ 70 := Nat.lt_trans h (by decide)
      have := bitLengthAux_le (toNumber a) (toNumber a) 70 h70
      unfold bitLength at hinf
      omega
    · exact decimal_formatShortest _ (shortest_n _ h)

theorem decimal_numberToString (i : Int) (h : toNumber i.natAbs < 10 ^ 21) :
    Decimal (numberToString i) := by
  intro u hu
  unfold numberToString at hu
  split at hu
  · rcases List.mem_cons.1 hu with h1 | h1
    · exact Or.inl h1
    · exact decimal_numberToStringAbs _ h u h1
  · exact decimal_numberToStringAbs _ h u hu

theorem includes_numberToString_other (i : Int) (T : JSString)
    (hi : toNumber i.natAbs < 10 ^ 21) (hT : ¬ Decimal T) :
    includes (numberToString i) T = false := by
  cases h : includes (numberToString i) T with
  | false => rfl
  | true =>
    exact absurd
      (decimal_of_substring ((includes_iff _ _).1 h) (decimal_numberToString i hi)) hT

theorem matchesSearch_congr (toLowerCase : JSString → JSString) (T U : JSString)
    (r : Pokemon) (hi : toNumber r.id.natAbs < 10 ^ 21)
    (hname : toLowerCase U = toLowerCase T)
    (hsame : U = T ∨ (¬ Decimal T ∧ ¬ Decimal U)) :
    matchesSearch toLowerCase U r = matchesSearch toLowerCase T r := by
  rcases hsame with h | ⟨hT, hU⟩
  · rw [h]
  · have hT0 : T ≠ [] := fun h => hT (h ▸ decimal_nil)
    have hU0 : U ≠ [] := fun h => hU (h ▸ decimal_nil)
    simp only [matchesSearch, hT0, hU0, if_false, hname,
      includes_numberToString_other _ _ hi hT, includes_numberToString_other _ _ hi hU]

/-! ### The concrete case mappings -/

theorem asciiToLowerCase_cons (u : Nat) (s : JSString) :
    asciiToLowerCase (u :: s) = asciiLowerUnit u :: asciiToLowerCase s := rfl

theorem latinToUpperCase_cons (u : Nat) (s : JSString) :
    latinToUpperCase (u :: s) = latinUpperUnit u ++ latinToUpperCase s := by
  simp [latinToUpperCase]

theorem asciiToLowerCase_append (s t : JSString) :
    asciiToLowerCase (s ++ t) = asciiToLowerCase s ++ asciiToLowerCase t := by
  simp [asciiToLowerCase]

theorem decimal_cons (u : Nat) (s : JSString) :
    Decimal (u :: s) ↔ (u = 45 ∨ (48 ≤ u ∧ u ≤ 57)) ∧ Decimal s := by
  simp [Decimal]

theorem decimal_append (s t : JSString) : Decimal (s ++ t) ↔ Decimal s ∧ Decimal t := by
  simp only [Decimal, List.mem_append]
  constructor
  · intro h
    exact ⟨fun u hu => h u (Or.inl hu), fun u hu => h u (Or.inr hu)⟩
  · rintro ⟨h1, h2⟩ u (hu | hu)
    · exact h1 u hu
    · exact h2 u hu

theorem asciiLowerUnit_decimal_iff (u : Nat) :
    (asciiLowerUnit u = 45 ∨ (48 ≤ asciiLowerUnit u ∧ asciiLowerUnit u ≤ 57)) ↔
      (u = 45 ∨ (48 ≤ u ∧ u ≤ 57)) := by
  unfold asciiLowerUnit
  split <;> omega

theorem asciiLowerUnit_of_decimal (u : Nat) (h : u = 45 ∨ (48 ≤ u ∧ u ≤ 57)) :
    asciiLowerUnit u = u := by
  unfold asciiLowerUnit
  split <;> omega

theorem latinUpperUnit_of_decimal (u : Nat) (h : u = 45 ∨ (48 ≤ u ∧ u ≤ 57)) :
    latinUpperUnit u = [u] := by
  unfold latinUpperUnit
  rw [if_neg (by omega), if_neg (by omega), if_neg (by omega)]

theorem latinUpperUnit_decimal (u : Nat) (h : Decimal (latinUpperUnit u)) :
    u = 45 ∨ (48 ≤ u ∧ u ≤ 57) := by
  unfold latinUpperUnit at h
  split at h
  · have := h (u - 32) (by simp)
    omega
  · split at h
    · have := h 83 (by simp)
      omega
    · split at h
      · have := h 73 (by simp)
        omega
      · exact h u (by simp)

theorem asciiToLowerCase_decimal_iff (s : JSString) :
    Decimal (asciiToLowerCase s) ↔ Decimal s := by
  induction s with
  | nil => exact Iff.rfl
  | cons u s ih =>
    rw [asciiToLowerCase_cons, decimal_cons, decimal_cons, ih, asciiLowerUnit_decimal_iff]

theorem asciiToLowerCase_of_decimal (s : JSString) (h : Decimal s) :
    asciiToLowerCase s = s := by
  induction s with
  | nil => rfl
  | cons u s ih =>
    rw [decimal_cons] at h
    rw [asciiToLowerCase_cons, ih h.2, asciiLowerUnit_of_decimal u h.1]

theorem latinToUpperCase_of_decimal (s : JSString) (h : Decimal s) :
    latinToUpperCase s = s := by
  induction s with
  | nil => rfl
  | cons u s ih =>
    rw [decimal_cons] at h
    rw [latinToUpperCase_cons, ih h.2, latinUpperUnit_of_decimal u h.1]
    rfl

theorem latinToUpperCase_decimal (s : JSString) (h : Decimal (latinToUpperCase s)) :
    Decimal s := by
  induction s with
  | nil => exact decimal_nil
  | cons u s ih =>
    rw [latinToUpperCase_cons, decimal_append] at h
    rw [decimal_cons]
    exact ⟨latinUpperUnit_decimal u h.1, ih h.2⟩

theorem asciiToLowerCase_idem (s : JSString) :
    asciiToLowerCase (asciiToLowerCase s) = asciiToLowerCase s := by
  induction s with
  | nil => rfl
  | cons u s ih =>
    rw [asciiToLowerCase_cons, asciiToLowerCase_cons, ih]
    congr 1
    unfold asciiLowerUnit
    split
    · rw [if_neg (by omega)]
    · rfl

/-- The concrete case mappings satisfy `CaseLaws`. -/
theorem caseLaws_ascii_latin : CaseLaws asciiToLowerCase latinToUpperCase where
  lower_idem := asciiToLowerCase_idem
  lower_decimal := asciiToLowerCase_of_decimal
  upper_decimal := latinToUpperCase_of_decimal
  lower_other := fun s h h1 => h ((asciiToLowerCase_decimal_iff s).1 h1)
  upper_other := fun s h h1 => h (latinToUpperCase_decimal s h1)

/-- On ASCII text, lowercasing the uppercased string is lowercasing the string. -/
theorem asciiToLowerCase_latinToUpperCase (s : JSString) (h : ∀ u ∈ s, u < 128) :
    asciiToLowerCase (latinToUpperCase s) = asciiToLowerCase s := by
  induction s with
  | nil => rfl
  | cons u s ih =>
    have hu : u < 128 := h u (by simp)
    have hs : ∀ v ∈ s, v < 128 := fun v hv => h v (by simp [hv])
    rw [latinToUpperCase_cons, asciiToLowerCase_append, ih hs, asciiToLowerCase_cons]
    have : asciiToLowerCase (latinUpperUnit u) = [asciiLowerUnit u] := by
      unfold latinUpperUnit
      split
      · rename_i h1
        simp only [asciiToLowerCase, asciiLowerUnit, List.map_cons, List.map_nil]
        rw [if_pos (by omega), if_neg (by omega)]
        congr 1
        omega
      · rw [if_neg (by omega), if_neg (by omega)]
        rfl
    rw [this]
    rfl

/-! ### The claim on letter case -/

/-- C9, as stated, fails at the term dotless `ı` (U+0131): its uppercase is `I`, whose
lowercase `i` occurs in `pikachu`, while `ı` itself does not; likewise for `ß`, whose
uppercase `SS` lowercases to `ss`. It fails too at the id `1e21`, printed `1e+21`: the term
`E` drops the record `{ id: 1e21, name: "abc" }` and its lowercase `e` keeps it. -/
theorem filteredPokemon_uppercase_counterexample :
    latinToUpperCase (utf16 "ı") = utf16 "I" ∧
    filteredPokemon asciiToLowerCase [bulbasaur, pikachu] (utf16 "ı") = [] ∧
    filteredPokemon asciiToLowerCase [bulbasaur, pikachu] (latinToUpperCase (utf16 "ı")) =
      [pikachu] ∧
    filteredPokemon asciiToLowerCase [⟨488, utf16 "cresselia"⟩] (utf16 "ß") = [] ∧
    filteredPokemon asciiToLowerCase [⟨488, utf16 "cresselia"⟩]
      (latinToUpperCase (utf16 "ß")) = [⟨488, utf16 "cresselia"⟩] ∧
    asciiToLowerCase (utf16 "E") = utf16 "e" ∧
    filteredPokemon asciiToLowerCase [⟨10 ^ 21, utf16 "abc"⟩] (utf16 "E") = [] ∧
    filteredPokemon asciiToLowerCase [⟨10 ^ 21, utf16 "abc"⟩] (asciiToLowerCase (utf16 "E")) =
      [⟨10 ^ 21, utf16 "abc"⟩] := by
  decide

/-- C9, amended: for a collection whose ids are, as Numbers, of magnitude below `10^21` (so
that `toString()` prints digits only), and when lowercasing is idempotent and digits and the
minus sign are caseless (`CaseLaws`), the filter gives the same list for a term and for its
lowercase; it gives the same list for the uppercase of the term whenever lowercasing the
uppercased term gives the lowercased term. -/
theorem filteredPokemon_case_insensitive (toLowerCase toUpperCase : JSString → JSString)
    (C : List Pokemon) (T : JSString) (laws : CaseLaws toLowerCase toUpperCase)
    (hid : ∀ r ∈ C, toNumber r.id.natAbs < 10 ^ 21) :
    filteredPokemon toLowerCase C (toLowerCase T) = filteredPokemon toLowerCase C T ∧
      (toLowerCase (toUpperCase T) = toLowerCase T →
        filteredPokemon toLowerCase C (toUpperCase T) = filteredPokemon toLowerCase C T) := by
  refine ⟨?_, ?_⟩
  · unfold filteredPokemon
    apply List.filter_congr
    intro r hr
    apply matchesSearch_congr toLowerCase T (toLowerCase T) r (hid r hr) (laws.lower_idem T)
    by_cases hT : Decimal T
    · exact Or.inl (laws.lower_decimal T hT)
    · exact Or.inr ⟨hT, laws.lower_other T hT⟩
  · intro hround
    unfold filteredPokemon
    apply List.filter_congr
    intro r hr
    apply matchesSearch_congr toLowerCase T (toUpperCase T) r (hid r hr) hround
    by_cases hT : Decimal T
    · exact Or.inl (laws.upper_decimal T hT)
    · exact Or.inr ⟨hT, laws.upper_other T hT⟩

/-- The term `PiKa` on the two records, with the concrete case mappings. -/
theorem filteredPokemon_case_insensitive_witness :
    filteredPokemon asciiToLowerCase [bulbasaur, pikachu] (asciiToLowerCase (utf16 "PiKa")) =
        filteredPokemon asciiToLowerCase [bulbasaur, pikachu] (utf16 "PiKa") ∧
      filteredPokemon asciiToLowerCase [bulbasaur, pikachu]
          (latinToUpperCase (utf16 "PiKa")) =
        filteredPokemon asciiToLowerCase [bulbasaur, pikachu] (utf16 "PiKa") :=
  ⟨(filteredPokemon_case_insensitive asciiToLowerCase latinToUpperCase [bulbasaur, pikachu]
      (utf16 "PiKa") caseLaws_ascii_latin (by decide)).1,
    (filteredPokemon_case_insensitive asciiToLowerCase latinToUpperCase [bulbasaur, pikachu]
      (utf16 "PiKa") caseLaws_ascii_latin (by decide)).2
      (asciiToLowerCase_latinToUpperCase (utf16 "PiKa") (by decide))⟩

end PokemonList
